import Mathlib

/-!
Verification of the Nova voice-call bridge (server.py).

This file gives a shallow embedding of the protocol core of the bridge:
the NovaSession lifecycle methods (start, begin_audio_turn,
send_audio_chunk, end_audio_turn, close) and the upstream-to-client
event translator loop (forward_bedrock_events), together with proofs of
the behavioural properties claimed of them.

Modelling conventions:
- upstream events sent by the session are an inductive trace type;
- uuid-generated audio content names are modelled by a counter supply
  (each begin opens a fresh name, unique per session state);
- Python exceptions in the translator loop are modelled with Except:
  an error result makes the loop return silently, as the enclosing
  try/except in forward_bedrock_events does;
- the possible failures of the three shutdown actions in close are
  modelled by explicit boolean failure flags, and close also returns
  the list of shutdown steps it actually attempted.
-/

namespace NovaBridge

/-- Decidable equality for Except results, used to state loop-body
results propositionally. -/
instance {ε α : Type} [DecidableEq ε] [DecidableEq α] : DecidableEq (Except ε α) := fun a b =>
  match a, b with
  | .error e1, .error e2 =>
      if h : e1 = e2 then .isTrue (by rw [h]) else .isFalse (by simp [h])
  | .error _, .ok _ => .isFalse (by simp)
  | .ok _, .error _ => .isFalse (by simp)
  | .ok v1, .ok v2 =>
      if h : v1 = v2 then .isTrue (by rw [h]) else .isFalse (by simp [h])

/-- Upstream Bedrock events emitted by the session, mirroring the JSON
payloads built in server.py. -/
inductive UpEvent where
  | sessionStartEv (maxTokens : Nat) (topP temperature : ℚ)
  | promptStartEv (promptName textMediaType audioMediaType : String)
      (sampleRateHertz sampleSizeBits channelCount : Nat)
      (voiceId encoding audioType : String)
  | contentStartTextEv (promptName contentName : String) (interactive : Bool)
      (role mediaType : String)
  | textInputEv (promptName contentName content : String)
  | contentStartAudioEv (promptName contentName : String) (interactive : Bool)
      (role mediaType : String) (sampleRateHertz sampleSizeBits channelCount : Nat)
      (audioType encoding : String)
  | audioInputEv (promptName contentName content : String)
  | contentEndEv (promptName contentName : String)
  | promptEndEv (promptName : String)
  | sessionEndEv
  deriving DecidableEq

/-- The role carried by a content-start event, if the event is one. -/
def csRole : UpEvent → Option String
  | .contentStartTextEv _ _ _ role _ => some role
  | .contentStartAudioEv _ _ _ role _ _ _ _ _ _ => some role
  | _ => none

/-- Whether an upstream event is a SYSTEM-role content-start. -/
def isSystemCS (e : UpEvent) : Bool := csRole e = some "SYSTEM"

/-- Whether an upstream event is a USER- or ASSISTANT-role content-start. -/
def isUserOrAssistantCS (e : UpEvent) : Bool :=
  csRole e = some "USER" || csRole e = some "ASSISTANT"

/-- The base64 alphabet used by Python base64.b64encode. -/
def b64Alphabet : String :=
  "ABCDEFGHIJKLMNOPQRSTUVWXYZabcdefghijklmnopqrstuvwxyz0123456789+/"

/-- The base64 digit for a 6-bit value. -/
def b64Digit (n : Nat) : Char := b64Alphabet.toList.getD n 'A'

/-- Standard base64 encoding of a byte list (bytes as naturals below 256),
with '=' padding, as produced by base64.b64encode in server.py. -/
def b64encode : List Nat → List Char
  | [] => []
  | [a] => [b64Digit (a / 4), b64Digit (a % 4 * 16), '=', '=']
  | [a, b] => [b64Digit (a / 4), b64Digit (a % 4 * 16 + b / 16),
      b64Digit (b % 16 * 4), '=']
  | a :: b :: c :: rest =>
      b64Digit (a / 4) :: b64Digit (a % 4 * 16 + b / 16) ::
      b64Digit (b % 16 * 4 + c / 64) :: b64Digit (c % 64) :: b64encode rest

/-- Base64 encoding as a string. -/
def b64String (bs : List Nat) : String := ⟨b64encode bs⟩

/-- The mutable state of a NovaSession (fields of the Python class).
The uuid supply for audio content names is modelled by a counter. -/
structure SessState where
  is_active : Bool
  prompt_name : String
  text_content_name : String
  audio_content_name : Option String
  counter : Nat
  deriving DecidableEq

/-- A freshly constructed NovaSession (the Python constructor), with the
two uuid-generated stable names supplied as parameters. -/
def initSess (pn tcn : String) : SessState :=
  { is_active := false, prompt_name := pn, text_content_name := tcn,
    audio_content_name := none, counter := 0 }

/-- The fresh audio content name the session would generate next
(models the f-string with uuid4 in begin_audio_turn). -/
def freshAudioName (s : SessState) : String := "audio-" ++ toString s.counter

/-- The exact upstream event sequence start emits after the stream opens:
sessionStart with the fixed inference constants, promptStart with the
output configurations, then the SYSTEM text block triple. -/
def startEvents (s : SessState) (system_prompt : String) : List UpEvent :=
  [ .sessionStartEv 1024 0.9 0.7,
    .promptStartEv s.prompt_name "text/plain" "audio/lpcm" 24000 16 1
      "tiffany" "base64" "SPEECH",
    .contentStartTextEv s.prompt_name s.text_content_name true "SYSTEM" "text/plain",
    .textInputEv s.prompt_name s.text_content_name system_prompt,
    .contentEndEv s.prompt_name s.text_content_name ]

/-- NovaSession.start: opening the bidirectional stream may fail, which
propagates to the caller; on success the session becomes active and the
start event sequence is emitted. -/
def start (s : SessState) (system_prompt : String) (openFails : Bool) :
    Except Unit (SessState × List UpEvent) :=
  if openFails then .error ()
  else .ok ({ s with is_active := true }, startEvents s system_prompt)

/-- NovaSession.begin_audio_turn: generates a fresh audio content name and
emits a content-start event typed AUDIO with role USER and the 16 kHz
16-bit mono input configuration. -/
def begin_audio_turn (s : SessState) : SessState × List UpEvent :=
  let name := freshAudioName s
  ({ s with audio_content_name := some name, counter := s.counter + 1 },
   [ .contentStartAudioEv s.prompt_name name true "USER" "audio/lpcm"
       16000 16 1 "SPEECH" "base64" ])

/-- NovaSession.send_audio_chunk: if no audio turn is open, opens one
first, then emits the base64-encoded PCM as an audioInput event
referencing the open content name. -/
def send_audio_chunk (s : SessState) (pcm : List Nat) : SessState × List UpEvent :=
  let opened := if s.audio_content_name = none then begin_audio_turn s else (s, [])
  let s1 := opened.1
  (s1, opened.2 ++
    [ .audioInputEv s1.prompt_name (s1.audio_content_name.getD "") (b64String pcm) ])

/-- NovaSession.end_audio_turn: no-op when no audio turn is open,
otherwise emits one content-end event and clears the audio content name. -/
def end_audio_turn (s : SessState) : SessState × List UpEvent :=
  match s.audio_content_name with
  | none => (s, [])
  | some name =>
      ({ s with audio_content_name := none },
       [ .contentEndEv s.prompt_name name ])

/-- Which of the shutdown actions inside close raise when attempted. -/
structure CloseFlags where
  failPromptEnd : Bool
  failSessionEnd : Bool
  failAdapterClose : Bool
  deriving DecidableEq

/-- The three shutdown actions close can attempt. -/
inductive ShutStep where
  | sendPromptEndStep
  | sendSessionEndStep
  | closeAdapterStep
  deriving DecidableEq

/-- No shutdown action fails. -/
def noFail : CloseFlags :=
  { failPromptEnd := false, failSessionEnd := false, failAdapterClose := false }

/-- Result of close: the new session state, the upstream events that were
actually sent, and the shutdown steps that were attempted. -/
structure CloseResult where
  state : SessState
  events : List UpEvent
  attempts : List ShutStep
  deriving DecidableEq

/-- NovaSession.close: returns immediately when inactive. Otherwise the
promptEnd and sessionEnd sends share a single try block, so a failing
promptEnd send skips the sessionEnd attempt; the adapter close sits in
its own try block and is always attempted; is_active is always cleared
at the end. A failing send is recorded as attempted but emits nothing. -/
def close (s : SessState) (fl : CloseFlags) : CloseResult :=
  if s.is_active then
    let sends :=
      if fl.failPromptEnd then
        (([] : List UpEvent), [ShutStep.sendPromptEndStep])
      else if fl.failSessionEnd then
        ([UpEvent.promptEndEv s.prompt_name],
         [ShutStep.sendPromptEndStep, ShutStep.sendSessionEndStep])
      else
        ([UpEvent.promptEndEv s.prompt_name, UpEvent.sessionEndEv],
         [ShutStep.sendPromptEndStep, ShutStep.sendSessionEndStep])
    { state := { s with is_active := false },
      events := sends.1,
      attempts := sends.2 ++ [ShutStep.closeAdapterStep] }
  else { state := s, events := [], attempts := [] }

/-- The session operations the websocket gateway can invoke after start
(the ws_handler loop and its teardown). -/
inductive GatewayOp where
  | beginAudioOp
  | sendAudioOp (pcm : List Nat)
  | endAudioOp
  | closeGw (fl : CloseFlags)

/-- The effect of one gateway-invoked session operation. -/
def runOp (s : SessState) : GatewayOp → SessState × List UpEvent
  | .beginAudioOp => begin_audio_turn s
  | .sendAudioOp pcm => send_audio_chunk s pcm
  | .endAudioOp => end_audio_turn s
  | .closeGw fl => let r := close s fl; (r.state, r.events)

/-- The session state and cumulative upstream trace after a sequence of
gateway-invoked operations. -/
def runOps (s : SessState) : List GatewayOp → SessState × List UpEvent
  | [] => (s, [])
  | op :: ops =>
      let r1 := runOp s op
      let r2 := runOps r1.1 ops
      (r2.1, r1.2 ++ r2.2)

/-- The full upstream trace of a session: the start events followed by
the trace of the gateway operations invoked afterwards. -/
def fullTrace (pn tcn system_prompt : String) (ops : List GatewayOp) : List UpEvent :=
  startEvents (initSess pn tcn) system_prompt ++
    (runOps { initSess pn tcn with is_active := true } ops).2

/-- The decode outcome of the additionalModelFields auxiliary string in a
contentStart event: absent (falsy), undecodable JSON (the inner parse
raises and is swallowed), or decoded with an optional generationStage. -/
inductive AddFields where
  | absent
  | unparseable
  | parsed (generationStage : Option String)
  deriving DecidableEq

/-- The fields of an upstream contentStart event the translator reads. -/
structure CSEvent where
  role : Option String
  additionalModelFields : AddFields
  deriving DecidableEq

/-- The fields of an upstream toolUse event the translator reads. -/
structure ToolUseEvent where
  name : Option String
  deriving DecidableEq

/-- A decoded upstream event object: which of the recognized keys are
present, with the sub-fields the translator reads. For textOutput and
audioOutput the inner Option is the content field (present or missing).
An object with none of these keys is an unrecognized event. -/
structure BEvent where
  contentStart : Option CSEvent
  textOutput : Option (Option String)
  audioOutput : Option (Option String)
  contentEnd : Bool
  toolUse : Option ToolUseEvent
  deriving DecidableEq

/-- One frame received from the upstream stream: an empty chunk (skipped
by the guard on result.value.bytes_), an undecodable JSON body (the
json.loads call raises), a JSON body without an event key, or a decoded
event object. -/
inductive UpFrame where
  | emptyFrame
  | badJson
  | noEventKey
  | withEvent (ev : BEvent)
  deriving DecidableEq

/-- Client-facing websocket notifications sent by the translator. -/
inductive ClientMsg where
  | contentStartMsg (role : Option String)
  | textMsg (role content : String)
  | audioMsg (sampleRate : Nat) (content : String)
  | contentEndMsg (role : Option String)
  | transferMsg (message : String)
  | endCallMsg (message : String)
  deriving DecidableEq

/-- The translator-local state of forward_bedrock_events together with
the session it can close on a tool invocation. -/
structure TransState where
  current_role : Option String
  current_stage : Option String
  emitted_assistant_lines : List String
  sess : SessState
  deriving DecidableEq

/-- The initial translator state at the top of forward_bedrock_events. -/
def initTrans (s : SessState) : TransState :=
  { current_role := none, current_stage := none,
    emitted_assistant_lines := [], sess := s }

/-- The generation stage extracted from additionalModelFields: parse
failures are swallowed and the stage is treated as unset. -/
def stageOf : AddFields → Option String
  | .absent => none
  | .unparseable => none
  | .parsed s => s

/-- The contentStart branch of the translator: record the role, reset the
dedup buffer when the assistant starts speaking, track the stage, and
notify the client. -/
def handleCS (st : TransState) (cs : CSEvent) : TransState × List ClientMsg :=
  ({ st with
      current_role := cs.role,
      current_stage := stageOf cs.additionalModelFields,
      emitted_assistant_lines :=
        if cs.role = some "ASSISTANT" then [] else st.emitted_assistant_lines },
   [.contentStartMsg cs.role])

/-- The textOutput branch of the translator: user text is forwarded
unconditionally; assistant text is forwarded only when nonempty, not yet
recorded for the turn, and not staged SPECULATIVE, and is recorded in
the dedup buffer when nonempty and new. -/
def handleText (st : TransState) (contentField : Option String) :
    TransState × List ClientMsg :=
  let text := contentField.getD ""
  if st.current_role = some "USER" then
    (st, [.textMsg "user" text])
  else if st.current_role = some "ASSISTANT" then
    if text ≠ "" ∧ text ∉ st.emitted_assistant_lines then
      if st.current_stage = some "SPECULATIVE" then
        ({ st with emitted_assistant_lines := st.emitted_assistant_lines ++ [text] },
         [])
      else
        ({ st with emitted_assistant_lines := st.emitted_assistant_lines ++ [text] },
         [.textMsg "assistant" text])
    else (st, [])
  else (st, [])

/-- The toolUse branch of the translator: transfer_call and end_call
notify the client and close the session; any other name is a no-op. -/
def handleTool (st : TransState) (t : ToolUseEvent) :
    TransState × List ClientMsg × List UpEvent :=
  if t.name = some "transfer_call" then
    let r := close st.sess noFail
    ({ st with sess := r.state }, [.transferMsg "Transferring call..."], r.events)
  else if t.name = some "end_call" then
    let r := close st.sess noFail
    ({ st with sess := r.state }, [.endCallMsg "Ending call..."], r.events)
  else (st, [], [])

/-- One iteration body of the forward_bedrock_events loop on a received
frame: the elif chain over the recognized event keys. An error result
models an uncaught exception inside the loop body (undecodable JSON, or
an audioOutput event whose content field is missing). The third
component is the upstream events sent during the iteration (only a tool
invocation sends upstream, via close). -/
def stepFrame (st : TransState) : UpFrame →
    Except Unit (TransState × List ClientMsg × List UpEvent)
  | .emptyFrame => .ok (st, [], [])
  | .badJson => .error ()
  | .noEventKey => .ok (st, [], [])
  | .withEvent ev =>
    match ev.contentStart with
    | some cs => .ok ((handleCS st cs).1, (handleCS st cs).2, [])
    | none =>
      match ev.textOutput with
      | some contentField =>
          .ok ((handleText st contentField).1, (handleText st contentField).2, [])
      | none =>
        match ev.audioOutput with
        | some audioContent =>
          match audioContent with
          | none => .error ()
          | some c => .ok (st, [.audioMsg 24000 c], [])
        | none =>
          if ev.contentEnd then .ok (st, [.contentEndMsg st.current_role], [])
          else
            match ev.toolUse with
            | some t => .ok (handleTool st t)
            | none => .ok (st, [], [])

/-- The forward_bedrock_events loop over a list of received frames: it
runs while the session is active, stops silently when an iteration
raises (the enclosing try/except swallows the exception), and collects
the client notifications and upstream sends in order. -/
def runLoop (st : TransState) : List UpFrame →
    List ClientMsg × List UpEvent × TransState
  | [] => ([], [], st)
  | f :: fs =>
    if st.sess.is_active then
      match stepFrame st f with
      | .error _ => ([], [], st)
      | .ok r =>
          let rest := runLoop r.1 fs
          (r.2.1 ++ rest.1, r.2.2 ++ rest.2.1, rest.2.2)
    else ([], [], st)

/-- A frame carrying only a textOutput event with the given content
field. -/
def textFrame (c : Option String) : UpFrame :=
  .withEvent { contentStart := none, textOutput := some c, audioOutput := none,
               contentEnd := false, toolUse := none }

/-- A frame carrying only a contentStart event. -/
def csFrame (cs : CSEvent) : UpFrame :=
  .withEvent { contentStart := some cs, textOutput := none, audioOutput := none,
               contentEnd := false, toolUse := none }

/-- A frame carrying only a contentEnd event. -/
def ceFrame : UpFrame :=
  .withEvent { contentStart := none, textOutput := none, audioOutput := none,
               contentEnd := true, toolUse := none }

/-- A frame carrying only a toolUse event with the given tool name. -/
def toolFrame (n : Option String) : UpFrame :=
  .withEvent { contentStart := none, textOutput := none, audioOutput := none,
               contentEnd := false, toolUse := some { name := n } }

/-- A frame carrying only an audioOutput event with the given content
field. -/
def audioFrame (c : Option String) : UpFrame :=
  .withEvent { contentStart := none, textOutput := none, audioOutput := some c,
               contentEnd := false, toolUse := none }

/-- A decoded event object carrying none of the recognized keys (an
unrecognized upstream event). -/
def unrecogEvent : BEvent :=
  { contentStart := none, textOutput := none, audioOutput := none,
    contentEnd := false, toolUse := none }

/-- Whether a frame is a contentStart event with role ASSISTANT (the
only frame that resets the assistant dedup buffer). -/
def isAssistantStartFrame : UpFrame → Bool
  | .withEvent ev =>
    match ev.contentStart with
    | some cs => cs.role = some "ASSISTANT"
    | none => false
  | _ => false

/-- Whether a frame carries a contentStart event at all. -/
def hasCSFrame : UpFrame → Bool
  | .withEvent ev => ev.contentStart.isSome
  | _ => false

/-- The number of occurrences of a given client message in a list. -/
def countMsg (target : ClientMsg) (l : List ClientMsg) : Nat :=
  l.countP (fun m => decide (m = target))

/-- A concrete active session state used in witnesses. -/
def wSess : SessState :=
  { is_active := true, prompt_name := "p", text_content_name := "t",
    audio_content_name := none, counter := 0 }

/-- A concrete session state with an open audio turn. -/
def wSessOpen : SessState := { wSess with audio_content_name := some "a" }

/-- A concrete translator state in an assistant turn with a clean dedup
buffer. -/
def wTrans : TransState :=
  { current_role := some "ASSISTANT", current_stage := none,
    emitted_assistant_lines := [], sess := wSess }

/-- A concrete translator state in a user turn. -/
def wTransUser : TransState := { wTrans with current_role := some "USER" }

/-- A concrete translator state at the top of the loop. -/
def wTransInit : TransState := initTrans wSess

/-- Close failure flags where only the promptEnd send raises. -/
def cexFlags : CloseFlags :=
  { failPromptEnd := true, failSessionEnd := false, failAdapterClose := false }

theorem countMsg_nil (m : ClientMsg) : countMsg m [] = 0 := rfl

theorem countMsg_append (m : ClientMsg) (l1 l2 : List ClientMsg) :
    countMsg m (l1 ++ l2) = countMsg m l1 + countMsg m l2 := by
  simp [countMsg, List.countP_append]

theorem countMsg_singleton (m m2 : ClientMsg) :
    countMsg m [m2] = if m2 = m then 1 else 0 := by
  simp [countMsg, List.countP_cons]

/-- The loop on an inactive session returns immediately. -/
theorem runLoop_inactive (st : TransState) (fs : List UpFrame)
    (h : st.sess.is_active = false) : runLoop st fs = ([], [], st) := by
  cases fs with
  | nil => rfl
  | cons f fs => simp [runLoop, h]

/-- The loop on an active session unfolds by one step. -/
theorem runLoop_cons_ok (st st2 : TransState) (f : UpFrame) (fs : List UpFrame)
    (out : List ClientMsg) (ups : List UpEvent)
    (hact : st.sess.is_active = true)
    (h : stepFrame st f = .ok (st2, out, ups)) :
    runLoop st (f :: fs) =
      (out ++ (runLoop st2 fs).1, ups ++ (runLoop st2 fs).2.1, (runLoop st2 fs).2.2) := by
  simp [runLoop, hact, h]

/-- The loop on an active session stops silently when the step raises. -/
theorem runLoop_cons_error (st : TransState) (f : UpFrame) (fs : List UpFrame)
    (hact : st.sess.is_active = true)
    (h : stepFrame st f = .error ()) :
    runLoop st (f :: fs) = ([], [], st) := by
  simp [runLoop, hact, h]

/-- Key per-step facts for assistant-text deduplication, for any frame
that is not an ASSISTANT content-start: a text already in the buffer is
never emitted and stays in the buffer; at most one assistant text
message is emitted per step; and an emitted text is in the resulting
buffer. -/
theorem step_dedup (st : TransState) (f : UpFrame) (t : String) (st2 : TransState)
    (out : List ClientMsg) (ups : List UpEvent)
    (h : stepFrame st f = .ok (st2, out, ups))
    (hf : isAssistantStartFrame f = false) :
    (t ∈ st.emitted_assistant_lines →
       countMsg (.textMsg "assistant" t) out = 0 ∧ t ∈ st2.emitted_assistant_lines) ∧
    countMsg (.textMsg "assistant" t) out ≤ 1 ∧
    (countMsg (.textMsg "assistant" t) out = 1 → t ∈ st2.emitted_assistant_lines) := by
  cases f with
  | emptyFrame =>
      simp only [stepFrame, Except.ok.injEq, Prod.mk.injEq] at h
      obtain ⟨rfl, rfl, rfl⟩ := h
      simp [countMsg]
  | badJson => simp [stepFrame] at h
  | noEventKey =>
      simp only [stepFrame, Except.ok.injEq, Prod.mk.injEq] at h
      obtain ⟨rfl, rfl, rfl⟩ := h
      simp [countMsg]
  | withEvent ev =>
      obtain ⟨cs, tof, ao, ce, tu⟩ := ev
      cases cs with
      | some c =>
          have hf2 : ¬ c.role = some "ASSISTANT" := by
            simpa [isAssistantStartFrame] using hf
          simp only [stepFrame, handleCS, Except.ok.injEq, Prod.mk.injEq] at h
          obtain ⟨rfl, rfl, rfl⟩ := h
          simp [countMsg, List.countP_cons, hf2]
      | none =>
        cases tof with
        | some contentField =>
            simp only [stepFrame, handleText] at h
            split_ifs at h with h1 h2 h3 h4 <;>
              simp only [Except.ok.injEq, Prod.mk.injEq] at h <;>
              obtain ⟨rfl, rfl, rfl⟩ := h
            · simp [countMsg, List.countP_cons]
            · obtain ⟨hne, hnotmem⟩ := h3
              refine ⟨fun hmem => ⟨?_, by simp [hmem]⟩, by simp [countMsg], by simp [countMsg]⟩
              simp [countMsg]
            · obtain ⟨hne, hnotmem⟩ := h3
              refine ⟨fun hmem => ?_, ?_, ?_⟩
              · have hne2 : ¬ contentField.getD "" = t := by
                  intro hc
                  exact hnotmem (by rw [hc]; exact hmem)
                exact ⟨by simp [countMsg, List.countP_cons, hne2], by simp [hmem]⟩
              · rw [countMsg_singleton]; split <;> simp
              · intro hcount
                rcases eq_or_ne (contentField.getD "") t with hc | hc
                · simp [hc]
                · rw [countMsg_singleton] at hcount
                  simp [hc] at hcount
            · simp [countMsg]
            · simp [countMsg]
        | none =>
          cases ao with
          | some audioContent =>
              cases audioContent with
              | none => simp [stepFrame] at h
              | some cc =>
                  simp only [stepFrame, Except.ok.injEq, Prod.mk.injEq] at h
                  obtain ⟨rfl, rfl, rfl⟩ := h
                  simp [countMsg, List.countP_cons]
          | none =>
            cases ce with
            | true =>
                simp only [stepFrame, Except.ok.injEq, Prod.mk.injEq] at h
                obtain ⟨rfl, rfl, rfl⟩ := h
                simp [countMsg, List.countP_cons]
            | false =>
              cases tu with
              | some tool =>
                  simp only [stepFrame, handleTool] at h
                  split_ifs at h <;>
                    (simp only [Except.ok.injEq, Prod.mk.injEq] at h
                     obtain ⟨rfl, rfl, rfl⟩ := h
                     simp [countMsg, List.countP_cons])
              | none =>
                  simp only [stepFrame, Except.ok.injEq, Prod.mk.injEq] at h
                  obtain ⟨rfl, rfl, rfl⟩ := h
                  simp [countMsg]

/-- Over any run containing no ASSISTANT content-start, a text already
in the dedup buffer is never emitted and stays in the buffer. -/
theorem runLoop_mem_zero (t : String) : ∀ (fs : List UpFrame) (st : TransState),
    (∀ f ∈ fs, isAssistantStartFrame f = false) →
    t ∈ st.emitted_assistant_lines →
    countMsg (.textMsg "assistant" t) (runLoop st fs).1 = 0 ∧
    t ∈ (runLoop st fs).2.2.emitted_assistant_lines := by
  intro fs
  induction fs with
  | nil => intro st _ hmem; simpa [runLoop, countMsg] using hmem
  | cons f fs ih =>
    intro st hno hmem
    by_cases hact : st.sess.is_active = true
    · rcases hstep : stepFrame st f with e | r
      · rw [runLoop_cons_error st f fs hact (by cases e; exact hstep)]
        simpa [countMsg] using hmem
      · obtain ⟨st2, out, ups⟩ := r
        rw [runLoop_cons_ok st st2 f fs out ups hact hstep]
        have hkey := step_dedup st f t st2 out ups hstep (hno f (by simp))
        have h1 := hkey.1 hmem
        have h2 := ih st2 (fun g hg => hno g (by simp [hg])) h1.2
        simp [countMsg_append, h1.1, h2.1, h2.2]
    · rw [runLoop_inactive st (f :: fs) (by simpa using hact)]
      simpa [countMsg] using hmem

/-- Over any run containing no ASSISTANT content-start, each assistant
text is sent to the client at most once. -/
theorem runLoop_count_le_one (t : String) : ∀ (fs : List UpFrame) (st : TransState),
    (∀ f ∈ fs, isAssistantStartFrame f = false) →
    countMsg (.textMsg "assistant" t) (runLoop st fs).1 ≤ 1 := by
  intro fs
  induction fs with
  | nil => intro st _; simp [runLoop, countMsg]
  | cons f fs ih =>
    intro st hno
    by_cases hact : st.sess.is_active = true
    · rcases hstep : stepFrame st f with e | r
      · rw [runLoop_cons_error st f fs hact (by cases e; exact hstep)]
        simp [countMsg]
      · obtain ⟨st2, out, ups⟩ := r
        rw [runLoop_cons_ok st st2 f fs out ups hact hstep]
        have hkey := step_dedup st f t st2 out ups hstep (hno f (by simp))
        have hrest : countMsg (.textMsg "assistant" t) (runLoop st2 fs).1 ≤ 1 :=
          ih st2 (fun g hg => hno g (by simp [hg]))
        rw [countMsg_append]
        by_cases hone : countMsg (.textMsg "assistant" t) out = 1
        · have hmem2 := hkey.2.2 hone
          have hz := (runLoop_mem_zero t fs st2 (fun g hg => hno g (by simp [hg])) hmem2).1
          omega
        · have := hkey.2.1
          omega
    · rw [runLoop_inactive st (f :: fs) (by simpa using hact)]
      simp [countMsg]

/-- A step on a frame without a contentStart event never changes
current_role. -/
theorem step_role_preserved (st : TransState) (f : UpFrame) (st2 : TransState)
    (out : List ClientMsg) (ups : List UpEvent)
    (h : stepFrame st f = .ok (st2, out, ups))
    (hf : hasCSFrame f = false) :
    st2.current_role = st.current_role := by
  cases f with
  | emptyFrame =>
      simp only [stepFrame, Except.ok.injEq, Prod.mk.injEq] at h
      obtain ⟨rfl, rfl, rfl⟩ := h; rfl
  | badJson => simp [stepFrame] at h
  | noEventKey =>
      simp only [stepFrame, Except.ok.injEq, Prod.mk.injEq] at h
      obtain ⟨rfl, rfl, rfl⟩ := h; rfl
  | withEvent ev =>
      obtain ⟨cs, tof, ao, ce, tu⟩ := ev
      cases cs with
      | some c => simp [hasCSFrame] at hf
      | none =>
        cases tof with
        | some contentField =>
            simp only [stepFrame, handleText] at h
            split_ifs at h <;>
              simp only [Except.ok.injEq, Prod.mk.injEq] at h <;>
              obtain ⟨rfl, rfl, rfl⟩ := h <;> rfl
        | none =>
          cases ao with
          | some audioContent =>
              cases audioContent with
              | none => simp [stepFrame] at h
              | some cc =>
                  simp only [stepFrame, Except.ok.injEq, Prod.mk.injEq] at h
                  obtain ⟨rfl, rfl, rfl⟩ := h; rfl
          | none =>
            cases ce with
            | true =>
                simp only [stepFrame, Except.ok.injEq, Prod.mk.injEq] at h
                obtain ⟨rfl, rfl, rfl⟩ := h; rfl
            | false =>
              cases tu with
              | some tool =>
                  simp only [stepFrame, handleTool] at h
                  split_ifs at h <;>
                    (simp only [Except.ok.injEq, Prod.mk.injEq] at h
                     obtain ⟨rfl, rfl, rfl⟩ := h
                     rfl)
              | none =>
                  simp only [stepFrame, Except.ok.injEq, Prod.mk.injEq] at h
                  obtain ⟨rfl, rfl, rfl⟩ := h; rfl

/-- Over a run containing no contentStart event, current_role is never
changed. -/
theorem runLoop_role_preserved : ∀ (fs : List UpFrame) (st : TransState),
    (∀ f ∈ fs, hasCSFrame f = false) →
    (runLoop st fs).2.2.current_role = st.current_role := by
  intro fs
  induction fs with
  | nil => intro st _; rfl
  | cons f fs ih =>
    intro st hno
    by_cases hact : st.sess.is_active = true
    · rcases hstep : stepFrame st f with e | r
      · rw [runLoop_cons_error st f fs hact (by cases e; exact hstep)]
      · obtain ⟨st2, out, ups⟩ := r
        rw [runLoop_cons_ok st st2 f fs out ups hact hstep]
        have h1 := step_role_preserved st f st2 out ups hstep (hno f (by simp))
        have h2 := ih st2 (fun g hg => hno g (by simp [hg]))
        simp [h1, h2]
    · rw [runLoop_inactive st (f :: fs) (by simpa using hact)]

/-- No gateway-invoked session operation ever emits a SYSTEM content
start. -/
theorem runOp_no_system (s : SessState) (op : GatewayOp) :
    ((runOp s op).2.countP (fun e => isSystemCS e)) = 0 := by
  cases op with
  | beginAudioOp => simp [runOp, begin_audio_turn, isSystemCS, csRole]
  | sendAudioOp pcm =>
      simp only [runOp, send_audio_chunk]
      split <;> simp [begin_audio_turn, isSystemCS, csRole]
  | endAudioOp =>
      simp only [runOp, end_audio_turn]
      split <;> simp [isSystemCS, csRole]
  | closeGw fl =>
      simp only [runOp, close]
      split
      · split <;> [skip; split] <;> simp [isSystemCS, csRole]
      · simp

/-- The upstream trace of any sequence of gateway-invoked session
operations contains no SYSTEM content start. -/
theorem runOps_no_system : ∀ (ops : List GatewayOp) (s : SessState),
    ((runOps s ops).2.countP (fun e => isSystemCS e)) = 0 := by
  intro ops
  induction ops with
  | nil => intro s; rfl
  | cons op ops ih =>
      intro s
      simp [runOps, List.countP_append, runOp_no_system, ih]

/-- Claim C2: a successful start emits, in order and nothing else, the
sessionStart event with the fixed inference constants (maxTokens 1024,
topP 0.9, temperature 0.7), the promptStart event declaring plain-text
output and 24 kHz 16-bit mono base64 SPEECH audio output, and exactly
one content-start/text-payload/content-end triple for a SYSTEM-role
TEXT block carrying the persona prompt verbatim; over the whole session
trace there is exactly one SYSTEM content start and it precedes every
USER or ASSISTANT content start. -/
theorem start_session_trace (pn tcn system_prompt : String) (ops : List GatewayOp) :
    start (initSess pn tcn) system_prompt false =
      .ok ({ initSess pn tcn with is_active := true },
        [ .sessionStartEv 1024 0.9 0.7,
          .promptStartEv pn "text/plain" "audio/lpcm" 24000 16 1 "tiffany" "base64" "SPEECH",
          .contentStartTextEv pn tcn true "SYSTEM" "text/plain",
          .textInputEv pn tcn system_prompt,
          .contentEndEv pn tcn ]) ∧
    (fullTrace pn tcn system_prompt ops).countP (fun e => isSystemCS e) = 1 ∧
    (fullTrace pn tcn system_prompt ops).get? 2 =
      some (.contentStartTextEv pn tcn true "SYSTEM" "text/plain") ∧
    (∀ i e, (fullTrace pn tcn system_prompt ops).get? i = some e →
      isUserOrAssistantCS e = true → 2 < i) := by
  refine ⟨rfl, ?_, rfl, ?_⟩
  · rw [fullTrace, List.countP_append, runOps_no_system]
    simp [startEvents, List.countP_cons, isSystemCS, csRole]
  · intro i e hget hua
    rcases i with _ | _ | _ | _ | _ | i
    · simp [fullTrace, startEvents] at hget
      subst hget; simp [isUserOrAssistantCS, csRole] at hua
    · simp [fullTrace, startEvents] at hget
      subst hget; simp [isUserOrAssistantCS, csRole] at hua
    · simp [fullTrace, startEvents] at hget
      subst hget; simp [isUserOrAssistantCS, csRole] at hua
    · simp [fullTrace, startEvents] at hget
      subst hget; simp [isUserOrAssistantCS, csRole] at hua
    · simp [fullTrace, startEvents] at hget
      subst hget; simp [isUserOrAssistantCS, csRole] at hua
    · omega

/-- Witness for start_session_trace: concrete session with one audio
turn after start; the trace has exactly one SYSTEM content start and
the USER content start at index 5 comes after it. -/
theorem start_session_trace_witness :
    (fullTrace "p" "t" "sys" [GatewayOp.beginAudioOp]).countP (fun e => isSystemCS e) = 1 ∧
    2 < 5 := by
  refine ⟨(start_session_trace "p" "t" "sys" [GatewayOp.beginAudioOp]).2.1, ?_⟩
  exact (start_session_trace "p" "t" "sys" [GatewayOp.beginAudioOp]).2.2.2 5
    (UpEvent.contentStartAudioEv "p" "audio-0" true "USER" "audio/lpcm"
      16000 16 1 "SPEECH" "base64")
    (by decide) (by decide)

/-- Claim C4 (amended): close is idempotent and a no-op when inactive;
is_active is false after close in every case; when active, the
promptEnd send and the adapter close are always attempted, while the
sessionEnd send is attempted exactly when the promptEnd send did not
fail, because both sends share one error guard. -/
theorem close_best_effort_amended (s : SessState) (fl fl2 : CloseFlags) :
    (s.is_active = false → close s fl = { state := s, events := [], attempts := [] }) ∧
    (close s fl).state.is_active = false ∧
    (s.is_active = true →
      (close s fl).attempts =
        ShutStep.sendPromptEndStep ::
          ((if fl.failPromptEnd then [] else [ShutStep.sendSessionEndStep]) ++
           [ShutStep.closeAdapterStep])) ∧
    close (close s fl).state fl2 =
      { state := (close s fl).state, events := [], attempts := [] } := by
  have hinact : (close s fl).state.is_active = false := by
    by_cases h : s.is_active = true <;> simp [close, h]
  refine ⟨fun h => by simp [close, h], hinact, fun h => ?_, ?_⟩
  · simp only [close, h, if_true]
    split_ifs <;> simp
  · conv_lhs => rw [close]
    simp [hinact]

/-- Witness for close_best_effort_amended: closing a concrete active
session with no failures clears the active flag and attempts all three
shutdown steps. -/
theorem close_best_effort_witness :
    (close wSess noFail).state.is_active = false ∧
    (close wSess noFail).attempts =
      [ShutStep.sendPromptEndStep, ShutStep.sendSessionEndStep,
       ShutStep.closeAdapterStep] := by
  refine ⟨(close_best_effort_amended wSess noFail noFail).2.1, ?_⟩
  have h := (close_best_effort_amended wSess noFail noFail).2.2.1 rfl
  simpa [noFail] using h

/-- Claim C4 counterexample: on an active session whose promptEnd send
fails, close never attempts the sessionEnd send (both sends share one
try block), so a failure in one shutdown step does prevent a later
shutdown step from running. -/
theorem close_skips_session_end_cex :
    (close wSess cexFlags).attempts =
      [ShutStep.sendPromptEndStep, ShutStep.closeAdapterStep] ∧
    ShutStep.sendSessionEndStep ∉ (close wSess cexFlags).attempts := by
  refine ⟨rfl, ?_⟩; decide

/-- Claim C6: send_audio_chunk with no open audio turn opens one first,
so exactly one auto-generated content-start(AUDIO, USER) precedes the
audio-payload event; in both cases the PCM bytes are base64-encoded and
emitted as an audioInput event referencing the currently open audio
content name. -/
theorem send_audio_chunk_spec (s : SessState) (pcm : List Nat) :
    (s.audio_content_name = none →
      send_audio_chunk s pcm =
        ({ s with audio_content_name := some (freshAudioName s), counter := s.counter + 1 },
         [ .contentStartAudioEv s.prompt_name (freshAudioName s) true "USER" "audio/lpcm"
             16000 16 1 "SPEECH" "base64",
           .audioInputEv s.prompt_name (freshAudioName s) (b64String pcm) ])) ∧
    (∀ n, s.audio_content_name = some n →
      send_audio_chunk s pcm = (s, [ .audioInputEv s.prompt_name n (b64String pcm) ])) := by
  constructor
  · intro h; simp [send_audio_chunk, begin_audio_turn, h]
  · intro n h; simp [send_audio_chunk, h]

/-- Witness for send_audio_chunk_spec: a concrete chunk on a session
with no open turn yields the auto-open content start followed by the
base64 payload. -/
theorem send_audio_chunk_witness :
    send_audio_chunk wSess [77, 97, 110] =
      ({ wSess with audio_content_name := some "audio-0", counter := 1 },
       [ .contentStartAudioEv "p" "audio-0" true "USER" "audio/lpcm"
           16000 16 1 "SPEECH" "base64",
         .audioInputEv "p" "audio-0" "TWFu" ]) := by
  have h := (send_audio_chunk_spec wSess [77, 97, 110]).1 rfl
  exact h.trans (by decide)

/-- Claim C7: end_audio_turn is idempotent: a no-op with no state change
when no audio turn is open; otherwise it emits exactly one content-end
event for the open name and clears it, so a second call in a row emits
nothing and changes nothing. -/
theorem end_audio_turn_idem (s : SessState) :
    (s.audio_content_name = none → end_audio_turn s = (s, [])) ∧
    (∀ n, s.audio_content_name = some n →
      end_audio_turn s =
        ({ s with audio_content_name := none }, [ .contentEndEv s.prompt_name n ])) ∧
    end_audio_turn (end_audio_turn s).1 = ((end_audio_turn s).1, []) := by
  refine ⟨fun h => by simp [end_audio_turn, h], fun n h => by simp [end_audio_turn, h], ?_⟩
  rcases h : s.audio_content_name with _ | n <;> simp [end_audio_turn, h]

/-- Witness for end_audio_turn_idem: on a concrete session with an open
audio turn, one call emits the content end and clears the name, and a
second call is a no-op. -/
theorem end_audio_turn_witness :
    end_audio_turn wSessOpen =
      ({ wSessOpen with audio_content_name := none }, [ .contentEndEv "p" "a" ]) ∧
    end_audio_turn (end_audio_turn wSessOpen).1 = ((end_audio_turn wSessOpen).1, []) := by
  refine ⟨?_, (end_audio_turn_idem wSessOpen).2.2⟩
  have h := (end_audio_turn_idem wSessOpen).2.1 "a" rfl
  exact h.trans (by decide)

/-- Claim C1 (amended): in an assistant turn, a payload whose text is
already recorded produces no notification and no state change; a
nonempty payload whose text is not yet recorded is recorded in the
buffer, and a client notification is emitted for it exactly when the
stage is not SPECULATIVE (an empty payload is discarded without being
recorded); consequently, over any run without an ASSISTANT
content-start reset, each assistant text is sent to the client at most
once. -/
theorem assistant_text_dedup_amended (st : TransState) (t : String)
    (hrole : st.current_role = some "ASSISTANT") :
    (t ∈ st.emitted_assistant_lines →
       stepFrame st (textFrame (some t)) = .ok (st, [], [])) ∧
    (t ∉ st.emitted_assistant_lines → t ≠ "" →
       stepFrame st (textFrame (some t)) = .ok
         ({ st with emitted_assistant_lines := st.emitted_assistant_lines ++ [t] },
          if st.current_stage = some "SPECULATIVE" then []
          else [ClientMsg.textMsg "assistant" t], [])) ∧
    (∀ fs, (∀ f ∈ fs, isAssistantStartFrame f = false) →
       countMsg (.textMsg "assistant" t) (runLoop st fs).1 ≤ 1) := by
  refine ⟨?_, ?_, fun fs hno => runLoop_count_le_one t fs st hno⟩
  · intro hmem
    simp [stepFrame, textFrame, handleText, hrole, hmem]
  · intro hnm hne
    simp only [stepFrame, textFrame, handleText, hrole]
    simp [hnm, hne]
    split_ifs <;> simp

/-- Witness for assistant_text_dedup_amended: a fresh nonempty assistant
text in a FINAL or unset stage is recorded and forwarded. -/
theorem assistant_text_dedup_witness :
    stepFrame wTrans (textFrame (some "Hi")) =
      .ok ({ wTrans with emitted_assistant_lines := ["Hi"] },
        [ClientMsg.textMsg "assistant" "Hi"], []) := by
  have h := (assistant_text_dedup_amended wTrans "Hi" rfl).2.1 (by decide) (by decide)
  exact h.trans (by decide)

/-- Claim C1 counterexample: an empty assistant payload that is not in
the dedup buffer is neither recorded nor forwarded, so the claim that
every not-yet-recorded payload is recorded fails at the empty text. -/
theorem assistant_text_dedup_cex :
    wTrans.current_role = some "ASSISTANT" ∧
    "" ∉ wTrans.emitted_assistant_lines ∧
    stepFrame wTrans (textFrame (some "")) = .ok (wTrans, [], []) := by
  decide

/-- Claim C3 (amended): a decoded frame carrying an unrecognized event
key, a frame without an event key, and an empty frame are dropped and
processing continues with the remaining frames; an undecodable frame,
or an audioOutput event with no content field, ends the translator loop
silently without processing the remaining frames — the bridge never
crashes (the loop returns normally), but it does not continue. -/
theorem malformed_frame_handling_amended (st : TransState) (ev : BEvent)
    (fs : List UpFrame)
    (hcs : ev.contentStart = none) (hto : ev.textOutput = none)
    (hao : ev.audioOutput = none) (hce : ev.contentEnd = false)
    (htu : ev.toolUse = none) :
    runLoop st (.withEvent ev :: fs) = runLoop st fs ∧
    runLoop st (.noEventKey :: fs) = runLoop st fs ∧
    runLoop st (.emptyFrame :: fs) = runLoop st fs ∧
    runLoop st (.badJson :: fs) = ([], [], st) ∧
    runLoop st (audioFrame none :: fs) = ([], [], st) := by
  have hstep : stepFrame st (.withEvent ev) = .ok (st, [], []) := by
    simp [stepFrame, hcs, hto, hao, hce, htu]
  by_cases hact : st.sess.is_active = true
  · refine ⟨?_, ?_, ?_, ?_, ?_⟩
    · rw [runLoop_cons_ok st st _ fs [] [] hact hstep]; simp
    · rw [runLoop_cons_ok st st _ fs [] [] hact (by simp [stepFrame])]; simp
    · rw [runLoop_cons_ok st st _ fs [] [] hact (by simp [stepFrame])]; simp
    · exact runLoop_cons_error st _ fs hact (by simp [stepFrame])
    · exact runLoop_cons_error st _ fs hact (by simp [stepFrame, audioFrame])
  · have h1 := runLoop_inactive st fs (by simpa using hact)
    have h2 := fun f => runLoop_inactive st (f :: fs) (by simpa using hact)
    simp [h1, h2]

/-- Witness for malformed_frame_handling_amended: an unrecognized-key
frame before a contentEnd frame is dropped and the contentEnd is still
processed, while an undecodable frame stops the loop. -/
theorem malformed_frame_witness :
    runLoop wTransInit [UpFrame.withEvent unrecogEvent, ceFrame] =
      runLoop wTransInit [ceFrame] ∧
    runLoop wTransInit [UpFrame.badJson, ceFrame] = ([], [], wTransInit) := by
  have h := malformed_frame_handling_amended wTransInit unrecogEvent
    [ceFrame] rfl rfl rfl rfl rfl
  exact ⟨h.1, h.2.2.2.1⟩

/-- Claim C3 counterexample: after an undecodable frame or an
audioOutput frame without a content field, the remaining frames produce
no notifications, although the same remaining frame alone produces one:
the translator does not continue processing subsequent upstream events
after such a frame. -/
theorem malformed_frame_cex :
    (runLoop wTransInit [UpFrame.badJson, ceFrame]).1 = [] ∧
    (runLoop wTransInit [audioFrame none, ceFrame]).1 = [] ∧
    (runLoop wTransInit [ceFrame]).1 = [ClientMsg.contentEndMsg none] := by
  decide

/-- Claim C5: a transfer_call tool invocation sends the transfer
notification and closes the session; an end_call invocation sends the
end_call notification and closes the session; any other tool name
produces no notification and no state change; after a transfer_call or
end_call the session is inactive and the loop performs no further
client or upstream sends regardless of the remaining frames. -/
theorem tool_invocation_spec (st : TransState) (hact : st.sess.is_active = true) :
    (stepFrame st (toolFrame (some "transfer_call")) = .ok
       ({ st with sess := { st.sess with is_active := false } },
        [ClientMsg.transferMsg "Transferring call..."],
        [UpEvent.promptEndEv st.sess.prompt_name, UpEvent.sessionEndEv])) ∧
    (stepFrame st (toolFrame (some "end_call")) = .ok
       ({ st with sess := { st.sess with is_active := false } },
        [ClientMsg.endCallMsg "Ending call..."],
        [UpEvent.promptEndEv st.sess.prompt_name, UpEvent.sessionEndEv])) ∧
    (∀ n, n ≠ some "transfer_call" → n ≠ some "end_call" →
       stepFrame st (toolFrame n) = .ok (st, [], [])) ∧
    (∀ fs,
       runLoop st (toolFrame (some "end_call") :: fs) =
         ([ClientMsg.endCallMsg "Ending call..."],
          [UpEvent.promptEndEv st.sess.prompt_name, UpEvent.sessionEndEv],
          { st with sess := { st.sess with is_active := false } }) ∧
       runLoop st (toolFrame (some "transfer_call") :: fs) =
         ([ClientMsg.transferMsg "Transferring call..."],
          [UpEvent.promptEndEv st.sess.prompt_name, UpEvent.sessionEndEv],
          { st with sess := { st.sess with is_active := false } })) := by
  have htr : stepFrame st (toolFrame (some "transfer_call")) = .ok
      ({ st with sess := { st.sess with is_active := false } },
       [ClientMsg.transferMsg "Transferring call..."],
       [UpEvent.promptEndEv st.sess.prompt_name, UpEvent.sessionEndEv]) := by
    simp [stepFrame, toolFrame, handleTool, close, noFail, hact]
  have hec : stepFrame st (toolFrame (some "end_call")) = .ok
      ({ st with sess := { st.sess with is_active := false } },
       [ClientMsg.endCallMsg "Ending call..."],
       [UpEvent.promptEndEv st.sess.prompt_name, UpEvent.sessionEndEv]) := by
    simp [stepFrame, toolFrame, handleTool, close, noFail, hact]
  have hin : ({ st with sess := { st.sess with is_active := false } } :
      TransState).sess.is_active = false := rfl
  refine ⟨htr, hec, ?_, fun fs => ?_⟩
  · intro n h1 h2
    simp [stepFrame, toolFrame, handleTool, h1, h2]
  · constructor
    · rw [runLoop_cons_ok st _ _ fs _ _ hact hec, runLoop_inactive _ fs hin]
      simp
    · rw [runLoop_cons_ok st _ _ fs _ _ hact htr, runLoop_inactive _ fs hin]
      simp

/-- Witness for tool_invocation_spec: an end_call tool frame on a
concrete active session notifies the client, closes upstream, and the
following frame is not processed. -/
theorem tool_invocation_witness :
    runLoop wTransInit [toolFrame (some "end_call"), ceFrame] =
      ([ClientMsg.endCallMsg "Ending call..."],
       [UpEvent.promptEndEv "p", UpEvent.sessionEndEv],
       { wTransInit with sess := { wSess with is_active := false } }) := by
  have h := ((tool_invocation_spec wTransInit rfl).2.2.2 [ceFrame]).1
  exact h.trans (by decide)

/-- Claim C8: in a user turn every text payload is forwarded as a
text-user notification unconditionally, with no deduplication: two
identical consecutive user payloads yield two notifications. -/
theorem user_text_no_dedup (st : TransState) (c : Option String) (x : String)
    (hrole : st.current_role = some "USER") (hact : st.sess.is_active = true) :
    stepFrame st (textFrame c) = .ok (st, [ClientMsg.textMsg "user" (c.getD "")], []) ∧
    runLoop st [textFrame (some x), textFrame (some x)] =
      ([ClientMsg.textMsg "user" x, ClientMsg.textMsg "user" x], [], st) := by
  have hstep : ∀ cc : Option String, stepFrame st (textFrame cc) =
      .ok (st, [ClientMsg.textMsg "user" (cc.getD "")], []) := by
    intro cc; simp [stepFrame, textFrame, handleText, hrole]
  refine ⟨hstep c, ?_⟩
  rw [runLoop_cons_ok st st _ _ _ _ hact (hstep (some x)),
      runLoop_cons_ok st st _ _ _ _ hact (hstep (some x))]
  simp [runLoop]

/-- Witness for user_text_no_dedup: two identical user transcripts on a
concrete session give two client notifications. -/
theorem user_text_no_dedup_witness :
    runLoop wTransUser [textFrame (some "hello"), textFrame (some "hello")] =
      ([ClientMsg.textMsg "user" "hello", ClientMsg.textMsg "user" "hello"],
       [], wTransUser) :=
  (user_text_no_dedup wTransUser (some "hello") "hello" rfl rfl).2

/-- Claim C9: an empty assistant text payload is discarded with no
notification and no change to the dedup buffer, whatever the current
stage, and whether the content field is empty or missing; empty user
text, in contrast, is forwarded. -/
theorem empty_assistant_text_discarded (st st2 : TransState)
    (hrole : st.current_role = some "ASSISTANT")
    (hrole2 : st2.current_role = some "USER") :
    stepFrame st (textFrame (some "")) = .ok (st, [], []) ∧
    stepFrame st (textFrame none) = .ok (st, [], []) ∧
    stepFrame st2 (textFrame (some "")) =
      .ok (st2, [ClientMsg.textMsg "user" ""], []) := by
  refine ⟨?_, ?_, ?_⟩
  · simp [stepFrame, textFrame, handleText, hrole]
  · simp [stepFrame, textFrame, handleText, hrole]
  · simp [stepFrame, textFrame, handleText, hrole2]

/-- Witness for empty_assistant_text_discarded: empty assistant text on
a concrete state is dropped while empty user text is forwarded. -/
theorem empty_assistant_text_witness :
    stepFrame wTrans (textFrame (some "")) = .ok (wTrans, [], []) ∧
    stepFrame wTransUser (textFrame (some "")) =
      .ok (wTransUser, [ClientMsg.textMsg "user" ""], []) := by
  have h := empty_assistant_text_discarded wTrans wTransUser rfl rfl
  exact ⟨h.1, h.2.2⟩

/-- Claim C10: at the start of a translator run current_role is unset
and stays unset until a content-start arrives; with the role unset, a
text payload produces no client notification, and a content-end event
produces a contentEnd notification whose role field is null. -/
theorem initial_role_unset (s : SessState) (fs : List UpFrame) (c : Option String)
    (hfs : ∀ f ∈ fs, hasCSFrame f = false) :
    (initTrans s).current_role = none ∧
    (runLoop (initTrans s) fs).2.2.current_role = none ∧
    (∀ st : TransState, st.current_role = none →
       stepFrame st (textFrame c) = .ok (st, [], []) ∧
       stepFrame st ceFrame = .ok (st, [ClientMsg.contentEndMsg none], [])) := by
  refine ⟨rfl, ?_, ?_⟩
  · rw [runLoop_role_preserved fs (initTrans s) hfs]; rfl
  · intro st hr
    constructor
    · simp [stepFrame, textFrame, handleText, hr]
    · simp [stepFrame, ceFrame, hr]

/-- Witness for initial_role_unset: on a concrete fresh translator
state, a text payload then a content-end leave the role unset, and the
content-end notification carries a null role. -/
theorem initial_role_unset_witness :
    (runLoop (initTrans wSess) [textFrame (some "x"), ceFrame]).2.2.current_role = none ∧
    stepFrame (initTrans wSess) ceFrame =
      .ok (initTrans wSess, [ClientMsg.contentEndMsg none], []) := by
  have h := initial_role_unset wSess [textFrame (some "x"), ceFrame] (some "x") (by decide)
  exact ⟨h.2.1, (h.2.2 (initTrans wSess) rfl).2⟩

end NovaBridge
